/-
Verification of the Resource Reclamation & Anomaly Detection engine of the
XOps repository against its natural-language specification.

The Lean definitions below are a shallow embedding of the Python sources:

* `challenges/11-aws-infrastructure/implementation/cost-optimizer.py`
* `challenges/14-finops-cost-optimization/implementation/resource-cleanup.py`
* `challenges/14-finops-cost-optimization/implementation/aws-cost-analyzer.py`
* `challenges/14-finops-cost-optimization/implementation/rightsizing-recommendations.py`
* `challenges/14-finops-cost-optimization/implementation/budget-alert-lambda.py`
* `challenges/15-cloud-networking/implementation/flow-log-analyzer.py`

Conventions of the embedding:
* Python floats are modelled as exact rationals (`ℚ`); every concrete input
  used in a theorem below is chosen so that the Python float computation is
  exact and agrees with the rational one.
* Calls to the AWS SDK are modelled by an environment record (`AwsEnv`) that
  fixes, per resource id, the outcome each mutating call would have; the
  sequence of mutating calls actually issued by a run is returned alongside
  the results as an explicit trace (`List AwsCall`).
* Python's broad `except Exception` handlers are modelled by the call
  outcomes `notFound` / `apiError` (boto3 raises a `ClientError` for a
  missing resource; the handlers in these scripts do not distinguish it from
  any other error).
-/
import Mathlib

/-! ## Shared modelling of the AWS SDK surface -/

/-- Outcome of one mutating AWS SDK call.  `notFound` is boto3 raising a
"resource not found" `ClientError`; `apiError` is any other exception. -/
inductive DeleteCallResult where
  | ok
  | notFound
  | apiError (msg : String)
deriving DecidableEq

/-- The environment fixes the result each mutating SDK call would produce.
`createSnapshotResult` returns the snapshot id on success (the value of
`snapshot['SnapshotId']` in `cost-optimizer.py`). -/
structure AwsEnv where
  createSnapshotResult : String → Except String String
  deleteVolumeResult : String → DeleteCallResult
  deleteSnapshotResult : String → DeleteCallResult
  releaseAddressResult : String → DeleteCallResult
  createTagsResult : String → DeleteCallResult

/-- A mutating AWS SDK call, as recorded in the trace of a run.  Read-only
calls (`describe_*`, `get_metric_statistics`, ...) are not traced. -/
inductive AwsCall where
  | createSnapshot (volumeId : String)
  | deleteVolume (volumeId : String)
  | deleteSnapshot (snapshotId : String)
  | releaseAddress (allocationId : String)
  | createTags (resourceId : String)
deriving DecidableEq

/-- Spec-level outcome classification of one candidate
(`ReclamationResult.outcome` in the specification's data model). -/
inductive Outcome where
  | reclaimed
  | simulatedDryRun
  | failed
  | alreadyGone
deriving DecidableEq

/-- Outcomes that the specification counts toward `totalSavings`. -/
def countsTowardSavings : Outcome → Bool
  | .reclaimed => true
  | .simulatedDryRun => true
  | .failed => false
  | .alreadyGone => false

/-! ## cost-optimizer.py : `delete_unattached_volumes` -/

/-- One entry of the list built by `find_unattached_volumes`: the fields of
the `volume_info` dict that `delete_unattached_volumes` reads.
`monthlyCost` is the upstream-computed `Size * 0.08` value. -/
structure VolumeInfo where
  volumeId : String
  size : ℕ
  monthlyCost : ℚ
deriving DecidableEq

/-- The `results` dict of `delete_unattached_volumes`. -/
structure VolumeResults where
  deleted : List String
  failed : List (String × String)
  totalSavings : ℚ
deriving DecidableEq

/-- Body of the `for volume in volumes` loop of `delete_unattached_volumes`
(cost-optimizer.py lines 92-129), acting on the accumulated results and
call trace.  In live mode a safety snapshot is created first; if that call
raises, control jumps to the `except` block and `delete_volume` is never
issued for this candidate. -/
def processVolume (dryRun : Bool) (env : AwsEnv) (acc : VolumeResults × List AwsCall)
    (v : VolumeInfo) : VolumeResults × List AwsCall :=
  if dryRun then
    ({ acc.1 with deleted := acc.1.deleted ++ [v.volumeId],
                  totalSavings := acc.1.totalSavings + v.monthlyCost }, acc.2)
  else
    match env.createSnapshotResult v.volumeId with
    | .error e =>
        ({ acc.1 with failed := acc.1.failed ++ [(v.volumeId, e)] },
         acc.2 ++ [.createSnapshot v.volumeId])
    | .ok _snapshotId =>
        match env.deleteVolumeResult v.volumeId with
        | .ok =>
            ({ acc.1 with deleted := acc.1.deleted ++ [v.volumeId],
                          totalSavings := acc.1.totalSavings + v.monthlyCost },
             acc.2 ++ [.createSnapshot v.volumeId, .deleteVolume v.volumeId])
        | .notFound =>
            ({ acc.1 with failed := acc.1.failed ++ [(v.volumeId, "NotFound")] },
             acc.2 ++ [.createSnapshot v.volumeId, .deleteVolume v.volumeId])
        | .apiError e =>
            ({ acc.1 with failed := acc.1.failed ++ [(v.volumeId, e)] },
             acc.2 ++ [.createSnapshot v.volumeId, .deleteVolume v.volumeId])

/-- `delete_unattached_volumes(volumes)` (cost-optimizer.py lines 84-131),
returning the `results` dict and the trace of mutating SDK calls issued. -/
def deleteUnattachedVolumes (dryRun : Bool) (env : AwsEnv) (volumes : List VolumeInfo) :
    VolumeResults × List AwsCall :=
  volumes.foldl (processVolume dryRun env) (⟨[], [], 0⟩, [])

/-- Spec-level outcome of one volume candidate under
`delete_unattached_volumes`. -/
def volumeOutcome (dryRun : Bool) (env : AwsEnv) (v : VolumeInfo) : Outcome :=
  if dryRun then .simulatedDryRun
  else
    match env.createSnapshotResult v.volumeId with
    | .error _ => .failed
    | .ok _ =>
        match env.deleteVolumeResult v.volumeId with
        | .ok => .reclaimed
        | .notFound => .failed
        | .apiError _ => .failed

/-- The error string recorded for a failed volume candidate. -/
def volumeErr (env : AwsEnv) (v : VolumeInfo) : String :=
  match env.createSnapshotResult v.volumeId with
  | .error e => e
  | .ok _ =>
      match env.deleteVolumeResult v.volumeId with
      | .ok => ""
      | .notFound => "NotFound"
      | .apiError e => e

/-- Abbreviation: does the candidate count toward savings in this run? -/
def volumeCounted (dryRun : Bool) (env : AwsEnv) (v : VolumeInfo) : Bool :=
  countsTowardSavings (volumeOutcome dryRun env v)

/-- The mutating calls `delete_unattached_volumes` issues for one volume. -/
def volumeCallsFor (dryRun : Bool) (env : AwsEnv) (v : VolumeInfo) : List AwsCall :=
  if dryRun then []
  else
    AwsCall.createSnapshot v.volumeId ::
      (match env.createSnapshotResult v.volumeId with
       | .error _ => []
       | .ok _ => [AwsCall.deleteVolume v.volumeId])

/-- Closed-form characterization of `delete_unattached_volumes`, proved by
induction on the candidate list. -/
theorem deleteUnattachedVolumes_eq (dryRun : Bool) (env : AwsEnv)
    (volumes : List VolumeInfo) :
    deleteUnattachedVolumes dryRun env volumes =
      (⟨(volumes.filter (volumeCounted dryRun env)).map (·.volumeId),
        (volumes.filter (fun v => !volumeCounted dryRun env v)).map
          (fun v => (v.volumeId, volumeErr env v)),
        ((volumes.filter (volumeCounted dryRun env)).map (·.monthlyCost)).sum⟩,
       volumes.flatMap (volumeCallsFor dryRun env)) := by
  have key : ∀ (vs : List VolumeInfo) (res : VolumeResults) (calls : List AwsCall),
      vs.foldl (processVolume dryRun env) (res, calls) =
        (⟨res.deleted ++ (vs.filter (volumeCounted dryRun env)).map (·.volumeId),
          res.failed ++ (vs.filter (fun v => !volumeCounted dryRun env v)).map
            (fun v => (v.volumeId, volumeErr env v)),
          res.totalSavings +
            ((vs.filter (volumeCounted dryRun env)).map (·.monthlyCost)).sum⟩,
         calls ++ vs.flatMap (volumeCallsFor dryRun env)) := by
    intro vs
    induction vs with
    | nil => intro res calls; simp
    | cons v rest ih =>
      intro res calls
      by_cases hd : dryRun
      · subst hd
        simp only [List.foldl_cons, processVolume, if_pos rfl, ih,
          volumeCounted, volumeOutcome, countsTowardSavings, volumeCallsFor,
          List.filter_cons, List.flatMap_cons]
        simp [add_assoc, List.append_assoc]
      · simp only [Bool.not_eq_true] at hd
        subst hd
        rcases hsnap : env.createSnapshotResult v.volumeId with e | sid
        · simp only [List.foldl_cons, processVolume, ih, volumeCounted,
            volumeOutcome, countsTowardSavings, volumeCallsFor, hsnap,
            List.filter_cons, List.flatMap_cons]
          simp [volumeErr, hsnap, List.append_assoc]
        · rcases hdel : env.deleteVolumeResult v.volumeId with _ | _ | msg
          all_goals
            simp only [List.foldl_cons, processVolume, ih, volumeCounted,
              volumeOutcome, countsTowardSavings, volumeCallsFor, hsnap, hdel,
              List.filter_cons, List.flatMap_cons]
            simp [volumeErr, hsnap, hdel, add_assoc, List.append_assoc]
  simpa [deleteUnattachedVolumes] using key volumes ⟨[], [], 0⟩ []

/-! ## cost-optimizer.py : `release_orphaned_eips` -/

/-- One entry of the list built by `find_orphaned_eips`: the fields
`release_orphaned_eips` reads.  `monthlyCost` is the upstream constant
`3.60`. -/
structure EipInfo where
  publicIp : String
  allocationId : String
  monthlyCost : ℚ
deriving DecidableEq

/-- The `results` dict of `release_orphaned_eips`. -/
structure EipResults where
  released : List String
  failed : List (String × String)
  totalSavings : ℚ
deriving DecidableEq

/-- Body of the loop of `release_orphaned_eips` (cost-optimizer.py
lines 178-198). -/
def processEip (dryRun : Bool) (env : AwsEnv) (acc : EipResults × List AwsCall)
    (e : EipInfo) : EipResults × List AwsCall :=
  if dryRun then
    ({ acc.1 with released := acc.1.released ++ [e.publicIp],
                  totalSavings := acc.1.totalSavings + e.monthlyCost }, acc.2)
  else
    match env.releaseAddressResult e.allocationId with
    | .ok =>
        ({ acc.1 with released := acc.1.released ++ [e.publicIp],
                      totalSavings := acc.1.totalSavings + e.monthlyCost },
         acc.2 ++ [.releaseAddress e.allocationId])
    | .notFound =>
        ({ acc.1 with failed := acc.1.failed ++ [(e.publicIp, "NotFound")] },
         acc.2 ++ [.releaseAddress e.allocationId])
    | .apiError msg =>
        ({ acc.1 with failed := acc.1.failed ++ [(e.publicIp, msg)] },
         acc.2 ++ [.releaseAddress e.allocationId])

/-- `release_orphaned_eips(eips)` (cost-optimizer.py lines 170-200). -/
def releaseOrphanedEips (dryRun : Bool) (env : AwsEnv) (eips : List EipInfo) :
    EipResults × List AwsCall :=
  eips.foldl (processEip dryRun env) (⟨[], [], 0⟩, [])

/-! ## cost-optimizer.py : `archive_old_snapshots` -/

/-- One snapshot record: the fields read by `archive_old_snapshots`
(cost-optimizer.py) and by `cleanup_old_snapshots` (resource-cleanup.py).
`startTime` is the snapshot's `StartTime` in days since the epoch. -/
structure SnapshotInfo where
  snapshotId : String
  volumeSize : ℕ
  startTime : ℤ
deriving DecidableEq

/-- The `results` dict of `archive_old_snapshots`. -/
structure ArchiveResults where
  tagged : List String
  failed : List (String × String)
deriving DecidableEq

/-- Body of the loop of `archive_old_snapshots` (cost-optimizer.py
lines 250-270).  Note that the function does not consult `DRY_RUN` at all:
the mutating `create_tags` call is issued in every execution mode. -/
def processArchiveSnapshot (env : AwsEnv) (acc : ArchiveResults × List AwsCall)
    (s : SnapshotInfo) : ArchiveResults × List AwsCall :=
  match env.createTagsResult s.snapshotId with
  | .ok =>
      ({ acc.1 with tagged := acc.1.tagged ++ [s.snapshotId] },
       acc.2 ++ [.createTags s.snapshotId])
  | .notFound =>
      ({ acc.1 with failed := acc.1.failed ++ [(s.snapshotId, "NotFound")] },
       acc.2 ++ [.createTags s.snapshotId])
  | .apiError msg =>
      ({ acc.1 with failed := acc.1.failed ++ [(s.snapshotId, msg)] },
       acc.2 ++ [.createTags s.snapshotId])

/-- `archive_old_snapshots(snapshots)` (cost-optimizer.py lines 243-272).
There is no dry-run parameter because the source reads none. -/
def archiveOldSnapshots (env : AwsEnv) (snapshots : List SnapshotInfo) :
    ArchiveResults × List AwsCall :=
  snapshots.foldl (processArchiveSnapshot env) (⟨[], []⟩, [])

/-- The trace of mutating SDK calls issued by one invocation of
`lambda_handler` (cost-optimizer.py lines 474-521): the volume pass, then
the Elastic-IP pass, then the snapshot-archival pass.  The remaining steps
of the handler (`find_untagged_resources`, `analyze_ec2_utilization`,
report generation and the SNS notification) issue no mutating
resource-modifying calls and are not traced. -/
def lambdaHandlerCalls (dryRun : Bool) (env : AwsEnv) (volumes : List VolumeInfo)
    (eips : List EipInfo) (snapshots : List SnapshotInfo) : List AwsCall :=
  (deleteUnattachedVolumes dryRun env volumes).2 ++
    (releaseOrphanedEips dryRun env eips).2 ++
    (archiveOldSnapshots env snapshots).2

/-- The trace of `release_orphaned_eips` is empty in dry-run mode, and its
results list every candidate as released with the upstream savings. -/
theorem releaseOrphanedEips_dryRun (env : AwsEnv) (eips : List EipInfo) :
    releaseOrphanedEips true env eips =
      (⟨eips.map (·.publicIp), [], (eips.map (·.monthlyCost)).sum⟩, []) := by
  have key : ∀ (es : List EipInfo) (res : EipResults) (calls : List AwsCall),
      es.foldl (processEip true env) (res, calls) =
        (⟨res.released ++ es.map (·.publicIp), res.failed,
          res.totalSavings + (es.map (·.monthlyCost)).sum⟩, calls) := by
    intro es
    induction es with
    | nil => intro res calls; simp
    | cons e rest ih =>
      intro res calls
      simp only [List.foldl_cons, processEip, if_pos rfl, ih, List.map_cons]
      simp [add_assoc]
  simpa [releaseOrphanedEips] using key eips ⟨[], [], 0⟩ []

/-- `archive_old_snapshots` issues the mutating `create_tags` call for every
snapshot it is given, unconditionally (there is no dry-run guard). -/
theorem archiveOldSnapshots_calls (env : AwsEnv) (snapshots : List SnapshotInfo) :
    (archiveOldSnapshots env snapshots).2 =
      snapshots.map (fun s => AwsCall.createTags s.snapshotId) := by
  have key : ∀ (ss : List SnapshotInfo) (res : ArchiveResults) (calls : List AwsCall),
      (ss.foldl (processArchiveSnapshot env) (res, calls)).2 =
        calls ++ ss.map (fun s => AwsCall.createTags s.snapshotId) := by
    intro ss
    induction ss with
    | nil => intro res calls; simp
    | cons s rest ih =>
      intro res calls
      rcases htag : env.createTagsResult s.snapshotId with _ | _ | msg
      all_goals
        simp only [List.foldl_cons, processArchiveSnapshot, htag, ih, List.map_cons]
        simp
  simpa [archiveOldSnapshots] using key snapshots ⟨[], []⟩ []

/-! ## resource-cleanup.py : the `ResourceCleanup` class -/

/-- One volume record as read by `ResourceCleanup.cleanup_unattached_volumes`. -/
structure CleanupVolume where
  volumeId : String
  size : ℕ
  volumeType : String
deriving DecidableEq

/-- One Elastic-IP record as read by
`ResourceCleanup.cleanup_unassociated_eips`.  `associated` models the
presence of the `AssociationId` key; `allocationId` and `publicIp` model
`eip.get(...)`, which may be absent. -/
structure AddressInfo where
  allocationId : Option String
  publicIp : Option String
  associated : Bool
deriving DecidableEq

/-- The `cleanup_report` dict of `ResourceCleanup`.  Snapshot entries are
`(id, size_gb, savings_per_month)`, volume entries `(id, size_gb, type)`,
EIP entries `(ip, savings_per_month)`. -/
structure CleanupReport where
  snapshotsDeleted : List (String × ℕ × ℚ)
  volumesDeleted : List (String × ℕ × String)
  eipsReleased : List (Option String × ℚ)
  totalSavings : ℚ
deriving DecidableEq

/-- `$0.05` per GB-month, the snapshot savings rate of resource-cleanup.py. -/
def snapshotSavingsRate : ℚ := 1 / 20

/-- `$3.60` per month, the Elastic-IP savings of resource-cleanup.py. -/
def eipMonthlySavings : ℚ := 18 / 5

/-- `ResourceCleanup.cleanup_old_snapshots` (resource-cleanup.py lines 26-54).
The method reads `snapshots[0]['StartTime'].tzinfo` to build the cutoff
date, so an empty snapshot inventory raises an unhandled `IndexError`
before any filtering happens; this is modelled by the `Except.error`
branch.  Per old snapshot the method issues `delete_snapshot` in live mode
(any exception is caught and only printed) and then appends a report entry
unconditionally — also when the delete failed. -/
def cleanupOldSnapshots (dryRun : Bool) (_env : AwsEnv) (now : ℤ) (daysOld : ℤ)
    (snapshots : List SnapshotInfo) :
    Except String (List (String × ℕ × ℚ) × ℕ × List AwsCall) :=
  match snapshots with
  | [] => .error "IndexError: list index out of range"
  | _ :: _ =>
      let cutoffDate := now - daysOld
      let oldSnapshots := snapshots.filter (fun s => s.startTime < cutoffDate)
      .ok (oldSnapshots.map
             (fun s => (s.snapshotId, s.volumeSize,
                        (s.volumeSize : ℚ) * snapshotSavingsRate)),
           oldSnapshots.length,
           if dryRun then []
           else oldSnapshots.map (fun s => AwsCall.deleteSnapshot s.snapshotId))

/-- Spec-level outcome of one old snapshot under
`cleanup_old_snapshots`: a failed `delete_snapshot` is caught, printed and
otherwise ignored, so it still ends up in the report. -/
def snapshotDeleteOutcome (dryRun : Bool) (env : AwsEnv) (s : SnapshotInfo) : Outcome :=
  if dryRun then .simulatedDryRun
  else
    match env.deleteSnapshotResult s.snapshotId with
    | .ok => .reclaimed
    | .notFound => .failed
    | .apiError _ => .failed

/-- `ResourceCleanup.cleanup_unattached_volumes` (resource-cleanup.py
lines 56-84).  In live mode `delete_volume` is issued directly for every
available volume — no safety snapshot is ever created — and the report
entry is appended whether or not the delete succeeded. -/
def cleanupUnattachedVolumes (dryRun : Bool) (_env : AwsEnv)
    (volumes : List CleanupVolume) :
    List (String × ℕ × String) × ℕ × List AwsCall :=
  (volumes.map (fun v => (v.volumeId, v.size, v.volumeType)),
   volumes.length,
   if dryRun then [] else volumes.map (fun v => AwsCall.deleteVolume v.volumeId))

/-- `ResourceCleanup.cleanup_unassociated_eips` (resource-cleanup.py
lines 86-111).  `release_address` is issued only in live mode and only when
an allocation id is present; the report entry is appended for every
unassociated address regardless. -/
def cleanupUnassociatedEips (dryRun : Bool) (_env : AwsEnv)
    (addresses : List AddressInfo) :
    List (Option String × ℚ) × ℕ × List AwsCall :=
  let unassociated := addresses.filter (fun a => !a.associated)
  (unassociated.map (fun a => (a.publicIp, eipMonthlySavings)),
   unassociated.length,
   if dryRun then []
   else unassociated.filterMap (fun a => a.allocationId.map AwsCall.releaseAddress))

/-- `ResourceCleanup.run_cleanup` (resource-cleanup.py lines 113-141).
`cleanup_old_snapshots()` is called first with its default `days_old=90`;
an exception it raises propagates (there is no handler), so the volume and
EIP passes never run and the report file is never written — modelled by
returning `Except.error` together with the calls issued so far (none).
On success `total_savings` is the sum of the recorded snapshot savings
plus `3.60` per recorded EIP entry, and the report is written. -/
def runCleanup (dryRun : Bool) (env : AwsEnv) (now : ℤ)
    (snapshots : List SnapshotInfo) (volumes : List CleanupVolume)
    (addresses : List AddressInfo) :
    Except String CleanupReport × List AwsCall :=
  match cleanupOldSnapshots dryRun env now 90 snapshots with
  | .error e => (.error e, [])
  | .ok (snapEntries, _snapCount, snapCalls) =>
      let volPass := cleanupUnattachedVolumes dryRun env volumes
      let eipPass := cleanupUnassociatedEips dryRun env addresses
      let snapshotSavings := (snapEntries.map (fun entry => entry.2.2)).sum
      let eipSavings := (eipPass.1.length : ℚ) * eipMonthlySavings
      (.ok ⟨snapEntries, volPass.1, eipPass.1, snapshotSavings + eipSavings⟩,
       snapCalls ++ volPass.2.2 ++ eipPass.2.2)

/-- Extract the reported total savings; an aborted run reports nothing. -/
def reportSavings : Except String CleanupReport → ℚ
  | .ok r => r.totalSavings
  | .error _ => 0

/-! ## Safety ordering of traces -/

/-- Did `create_snapshot` succeed for this volume id in this environment? -/
def snapshotOk (env : AwsEnv) (volumeId : String) : Bool :=
  match env.createSnapshotResult volumeId with
  | .ok _ => true
  | .error _ => false

/-- Scan a call trace left to right, remembering the volume ids for which a
successful safety snapshot has been created so far; return `true` exactly
when some `delete_volume` call occurs that is not preceded by a successful
`create_snapshot` for the same volume. -/
def unguardedDelete (env : AwsEnv) : List String → List AwsCall → Bool
  | _, [] => false
  | seen, .createSnapshot volumeId :: rest =>
      unguardedDelete env (if snapshotOk env volumeId then volumeId :: seen else seen) rest
  | seen, .deleteVolume volumeId :: rest =>
      if seen.contains volumeId then unguardedDelete env seen rest else true
  | seen, .deleteSnapshot _ :: rest => unguardedDelete env seen rest
  | seen, .releaseAddress _ :: rest => unguardedDelete env seen rest
  | seen, .createTags _ :: rest => unguardedDelete env seen rest

/-- Unfolding equation of the scan at a `createSnapshot` call. -/
theorem unguardedDelete_createSnapshot (env : AwsEnv) (seen : List String)
    (volumeId : String) (rest : List AwsCall) :
    unguardedDelete env seen (.createSnapshot volumeId :: rest) =
      unguardedDelete env
        (if snapshotOk env volumeId then volumeId :: seen else seen) rest := rfl

/-- Unfolding equation of the scan at a `deleteVolume` call. -/
theorem unguardedDelete_deleteVolume (env : AwsEnv) (seen : List String)
    (volumeId : String) (rest : List AwsCall) :
    unguardedDelete env seen (.deleteVolume volumeId :: rest) =
      (if seen.contains volumeId then unguardedDelete env seen rest else true) := rfl

/-- Every `delete_volume` call issued by `delete_unattached_volumes` in live
mode is preceded, in the trace, by a successful `create_snapshot` for the
same volume. -/
theorem deleteUnattachedVolumes_guarded (env : AwsEnv) (volumes : List VolumeInfo) :
    unguardedDelete env [] (deleteUnattachedVolumes false env volumes).2 = false := by
  rw [deleteUnattachedVolumes_eq]
  show unguardedDelete env [] (volumes.flatMap (volumeCallsFor false env)) = false
  have key : ∀ (vs : List VolumeInfo) (seen : List String),
      unguardedDelete env seen (vs.flatMap (volumeCallsFor false env)) = false := by
    intro vs
    induction vs with
    | nil => intro seen; rfl
    | cons v rest ih =>
      intro seen
      rcases hsnap : env.createSnapshotResult v.volumeId with e | sid
      · have hok : snapshotOk env v.volumeId = false := by simp [snapshotOk, hsnap]
        have hcalls : volumeCallsFor false env v = [AwsCall.createSnapshot v.volumeId] := by
          simp [volumeCallsFor, hsnap]
        rw [List.flatMap_cons, hcalls, List.singleton_append,
          unguardedDelete_createSnapshot, if_neg (by simp [hok])]
        exact ih seen
      · have hok : snapshotOk env v.volumeId = true := by simp [snapshotOk, hsnap]
        have hcalls : volumeCallsFor false env v =
            [AwsCall.createSnapshot v.volumeId, AwsCall.deleteVolume v.volumeId] := by
          simp [volumeCallsFor, hsnap]
        rw [List.flatMap_cons, hcalls, List.cons_append, List.singleton_append,
          unguardedDelete_createSnapshot, if_pos hok, unguardedDelete_deleteVolume,
          if_pos (by simp)]
        exact ih (v.volumeId :: seen)
  exact key volumes []

/-- In live mode, a volume id is recorded in `results['deleted']` only if its
safety snapshot succeeded. -/
theorem deleteUnattachedVolumes_deleted_snapshotOk (env : AwsEnv)
    (volumes : List VolumeInfo) :
    ((deleteUnattachedVolumes false env volumes).1.deleted).all (snapshotOk env) = true := by
  rw [deleteUnattachedVolumes_eq]
  simp only [List.all_eq_true, List.mem_map, List.mem_filter]
  rintro id ⟨v, ⟨_hv, hcounted⟩, rfl⟩
  revert hcounted
  simp only [volumeCounted, volumeOutcome, Bool.false_eq_true, if_false, snapshotOk]
  rcases hsnap : env.createSnapshotResult v.volumeId with e | sid
  · simp [countsTowardSavings]
  · simp

/-- Live mode of `ResourceCleanup.cleanup_unattached_volumes` issues a bare
`delete_volume` for every available volume and never any snapshot call. -/
theorem cleanupUnattachedVolumes_calls (env : AwsEnv) (volumes : List CleanupVolume) :
    (cleanupUnattachedVolumes false env volumes).2.2 =
      volumes.map (fun v => AwsCall.deleteVolume v.volumeId) := by
  rfl

/-! ## Concrete inputs and environments used by the counterexamples -/

/-- Environment in which every AWS call succeeds. -/
def envAllOk : AwsEnv :=
  ⟨fun volumeId => .ok ("snap-for-" ++ volumeId),
   fun _ => .ok, fun _ => .ok, fun _ => .ok, fun _ => .ok⟩

/-- Environment in which `delete_volume` reports the volume as missing. -/
def envVolumeGone : AwsEnv :=
  { envAllOk with deleteVolumeResult := fun _ => .notFound }

/-- Environment in which `delete_snapshot` fails with an API error. -/
def envSnapshotDeleteFails : AwsEnv :=
  { envAllOk with deleteSnapshotResult := fun _ => .apiError "AccessDenied" }

/-- A 100-GB unattached volume as discovered by `find_unattached_volumes`
(monthly cost `100 * 0.08 = 8`, exact in binary floating point). -/
def exVolumeInfo : VolumeInfo := ⟨"vol-1", 100, 8⟩

/-- A 100-GB available volume as listed by `describe_volumes` in
resource-cleanup.py. -/
def exCleanupVolume : CleanupVolume := ⟨"vol-1", 100, "gp2"⟩

/-- A 100-GB snapshot taken at epoch day 0. -/
def exSnapshot : SnapshotInfo := ⟨"snap-1", 100, 0⟩

/-! ## Claims C1, C2, C3, C7, C9 -/

/-- **C1, counterexample.**  The claim asserts that a `Deleted` outcome for a
volume occurs only after a successful safety snapshot "for every deletion
path in the program, unconditionally".  A live run of
`ResourceCleanup.cleanup_unattached_volumes` on one available volume
records the volume as deleted while its call trace is a bare
`delete_volume` — no `create_snapshot` is ever issued on this path. -/
theorem C1_counterexample :
    cleanupUnattachedVolumes false envAllOk [exCleanupVolume] =
      ([("vol-1", 100, "gp2")], 1, [.deleteVolume "vol-1"])
    ∧ unguardedDelete envAllOk []
        (cleanupUnattachedVolumes false envAllOk [exCleanupVolume]).2.2 = true
    ∧ AwsCall.createSnapshot "vol-1" ∉
        (cleanupUnattachedVolumes false envAllOk [exCleanupVolume]).2.2 := by
  refine ⟨by decide, by decide, by decide⟩

/-- **C1, amended.**  In `delete_unattached_volumes` (cost-optimizer.py) the
safety invariant does hold: in live mode every issued `delete_volume` call
is preceded in the trace by a successful `create_snapshot` for the same
volume (so a failed snapshot suppresses the delete), and every volume
recorded as deleted had a successful safety snapshot.  By contrast,
`ResourceCleanup.cleanup_unattached_volumes` (resource-cleanup.py) issues a
bare `delete_volume` for every candidate and never creates a snapshot. -/
theorem C1_amended_safety :
    (∀ (env : AwsEnv) (volumes : List VolumeInfo),
        unguardedDelete env [] (deleteUnattachedVolumes false env volumes).2 = false)
    ∧ (∀ (env : AwsEnv) (volumes : List VolumeInfo),
        ((deleteUnattachedVolumes false env volumes).1.deleted).all (snapshotOk env) = true)
    ∧ (∀ (env : AwsEnv) (volumes : List CleanupVolume),
        (cleanupUnattachedVolumes false env volumes).2.2 =
          volumes.map (fun v => AwsCall.deleteVolume v.volumeId)) :=
  ⟨deleteUnattachedVolumes_guarded, deleteUnattachedVolumes_deleted_snapshotOk,
   cleanupUnattachedVolumes_calls⟩

/-- **C9 (confirmed).**  With an empty snapshot inventory,
`cleanup_old_snapshots` indexes `snapshots[0]` to obtain a timezone and
raises an unhandled `IndexError`, so `run_cleanup` aborts before any
volume or Elastic-IP cleanup is attempted (the call trace is empty) and no
report is written (the run ends in the error state, not in an `ok` report). -/
theorem C9_empty_inventory_aborts :
    ∀ (dryRun : Bool) (env : AwsEnv) (now : ℤ) (volumes : List CleanupVolume)
      (addresses : List AddressInfo),
      runCleanup dryRun env now [] volumes addresses =
        (.error "IndexError: list index out of range", []) := by
  intro dryRun env now volumes addresses
  rfl

/-- **C2, counterexample.**  A live `run_cleanup` over one 100-GB old
snapshot whose `delete_snapshot` call fails still records the snapshot in
the report with `savings_per_month = 5` and reports `total_savings = 5`,
although the candidate's outcome is `Failed` — so the total does not equal
the sum over `Reclaimed` and `SimulatedDryRun` results (which is `0`), and
a `Failed` candidate contributes a non-zero amount. -/
theorem C2_counterexample :
    runCleanup false envSnapshotDeleteFails 1000 [exSnapshot] [] [] =
      (.ok ⟨[("snap-1", 100, 5)], [], [], 5⟩, [.deleteSnapshot "snap-1"])
    ∧ snapshotDeleteOutcome false envSnapshotDeleteFails exSnapshot = .failed
    ∧ countsTowardSavings
        (snapshotDeleteOutcome false envSnapshotDeleteFails exSnapshot) = false
    ∧ (5 : ℚ) ≠ 0 := by
  refine ⟨?_, by rfl, by rfl, by norm_num⟩
  simp only [runCleanup, cleanupOldSnapshots, cleanupUnattachedVolumes,
    cleanupUnassociatedEips, exSnapshot, snapshotSavingsRate, eipMonthlySavings,
    List.filter_cons, List.filter_nil]
  norm_num

/-- **C2, amended.**  In `delete_unattached_volumes` (cost-optimizer.py) the
claimed invariant holds: `total_savings` is exactly the sum of the monthly
costs of the candidates whose outcome is `Reclaimed` or `SimulatedDryRun`
(so `Failed` candidates contribute nothing).  In
`ResourceCleanup.run_cleanup` (resource-cleanup.py) it does not: the
reported total is the sum of `0.05 * size` over *all* old snapshots —
whether their delete succeeded, failed, or was only simulated — plus
`3.60` for *every* unassociated Elastic IP, irrespective of outcome. -/
theorem C2_amended_totals :
    (∀ (dryRun : Bool) (env : AwsEnv) (volumes : List VolumeInfo),
        (deleteUnattachedVolumes dryRun env volumes).1.totalSavings =
          ((volumes.filter (volumeCounted dryRun env)).map (·.monthlyCost)).sum)
    ∧ (∀ (dryRun : Bool) (env : AwsEnv) (now : ℤ) (s : SnapshotInfo)
        (ss : List SnapshotInfo) (volumes : List CleanupVolume)
        (addresses : List AddressInfo),
        reportSavings (runCleanup dryRun env now (s :: ss) volumes addresses).1 =
          (((s :: ss).filter (fun t => t.startTime < now - 90)).map
              (fun t => (t.volumeSize : ℚ) * snapshotSavingsRate)).sum
            + (((addresses.filter (fun a => !a.associated)).length : ℚ)
                * eipMonthlySavings)) := by
  constructor
  · intro dryRun env volumes
    rw [deleteUnattachedVolumes_eq]
  · intro dryRun env now s ss volumes addresses
    simp only [runCleanup, cleanupOldSnapshots, cleanupUnassociatedEips,
      reportSavings, List.map_map, Function.comp, List.length_map]
    rfl

/-- **C3, counterexample.**  The claim asserts that dry-run mode never
issues a mutating external call.  A dry-run invocation of the
cost-optimizer handler over one old snapshot issues the mutating
`create_tags` call: `archive_old_snapshots` never consults `DRY_RUN`. -/
theorem C3_counterexample :
    lambdaHandlerCalls true envAllOk [] [] [exSnapshot] =
      [AwsCall.createTags "snap-1"]
    ∧ lambdaHandlerCalls true envAllOk [] [] [exSnapshot] ≠ [] := by
  refine ⟨by decide, by decide⟩

/-- **C3, amended.**  In dry-run mode the volume and Elastic-IP passes issue
no external call at all; they record exactly one `SimulatedDryRun` result
per eligible candidate, and the dry-run total savings equal the savings a
fully-successful live run would compute over the same candidates.
However, the snapshot-archival pass issues the mutating `create_tags`
call for every old snapshot regardless of execution mode, so the dry-run
handler's mutating-call trace is exactly those `create_tags` calls (and in
particular still contains no destructive delete). -/
theorem C3_amended_dryRun :
    (∀ (env : AwsEnv) (volumes : List VolumeInfo),
        deleteUnattachedVolumes true env volumes =
          (⟨volumes.map (·.volumeId), [], (volumes.map (·.monthlyCost)).sum⟩, []))
    ∧ (∀ (env : AwsEnv) (volumes : List VolumeInfo),
        (deleteUnattachedVolumes true env volumes).1.totalSavings =
          (deleteUnattachedVolumes false envAllOk volumes).1.totalSavings)
    ∧ (∀ (env : AwsEnv) (eips : List EipInfo),
        releaseOrphanedEips true env eips =
          (⟨eips.map (·.publicIp), [], (eips.map (·.monthlyCost)).sum⟩, []))
    ∧ (∀ (env : AwsEnv) (snapshots : List SnapshotInfo),
        (archiveOldSnapshots env snapshots).2 =
          snapshots.map (fun s => AwsCall.createTags s.snapshotId))
    ∧ (∀ (env : AwsEnv) (volumes : List VolumeInfo) (eips : List EipInfo)
        (snapshots : List SnapshotInfo),
        lambdaHandlerCalls true env volumes eips snapshots =
          snapshots.map (fun s => AwsCall.createTags s.snapshotId)) := by
  have hfilter : ∀ {α : Type} (p : α → Bool), (∀ a, p a = true) →
      ∀ l : List α, l.filter p = l := by
    intro α p hp l
    induction l with
    | nil => rfl
    | cons a rest ih => simp [List.filter_cons, hp a, ih]
  have hfilterNil : ∀ {α : Type} (p : α → Bool), (∀ a, p a = false) →
      ∀ l : List α, l.filter p = [] := by
    intro α p hp l
    induction l with
    | nil => rfl
    | cons a rest ih => simp [List.filter_cons, hp a, ih]
  have hflat : ∀ {α β : Type} (f : α → List β), (∀ a, f a = []) →
      ∀ l : List α, l.flatMap f = [] := by
    intro α β f hf l
    induction l with
    | nil => rfl
    | cons a rest ih => simp [List.flatMap_cons, hf a, ih]
  have hdry : ∀ (env : AwsEnv) (volumes : List VolumeInfo),
      deleteUnattachedVolumes true env volumes =
        (⟨volumes.map (·.volumeId), [], (volumes.map (·.monthlyCost)).sum⟩, []) := by
    intro env volumes
    rw [deleteUnattachedVolumes_eq]
    rw [hfilter (volumeCounted true env) (fun _ => rfl) volumes,
      hflat (volumeCallsFor true env) (fun _ => rfl) volumes,
      hfilterNil (fun v => !volumeCounted true env v) (fun _ => rfl) volumes]
    simp
  refine ⟨hdry, ?_, releaseOrphanedEips_dryRun, archiveOldSnapshots_calls, ?_⟩
  · intro env volumes
    rw [hdry, deleteUnattachedVolumes_eq]
    rw [hfilter (volumeCounted false envAllOk) (fun _ => rfl) volumes]
  · intro env volumes eips snapshots
    rw [lambdaHandlerCalls, hdry, releaseOrphanedEips_dryRun,
      archiveOldSnapshots_calls]
    simp

/-- **C7, counterexample.**  The claim asserts that a delete call returning
"resource not found" yields an `AlreadyGone` outcome and does not raise
the failure count.  In `delete_unattached_volumes`, a `NotFound` from
`delete_volume` is caught by the same `except` block as any other error:
the volume lands in `results['failed']` (failure count 1), nothing in
`results['deleted']`, and no `AlreadyGone` outcome exists. -/
theorem C7_counterexample :
    deleteUnattachedVolumes false envVolumeGone [exVolumeInfo] =
      (⟨[], [("vol-1", "NotFound")], 0⟩,
       [.createSnapshot "vol-1", .deleteVolume "vol-1"])
    ∧ (deleteUnattachedVolumes false envVolumeGone [exVolumeInfo]).1.failed.length = 1
    ∧ volumeOutcome false envVolumeGone exVolumeInfo = .failed
    ∧ volumeOutcome false envVolumeGone exVolumeInfo ≠ .alreadyGone := by
  refine ⟨by decide, by decide, by rfl, by decide⟩

/-- **C7, amended.**  A delete call that returns NotFound is recorded as
`Failed` — indistinguishably from any other exception: the failed list of
a live run is exactly the failed-outcome candidates with their error
strings, and under an environment whose `delete_volume` reports NotFound
every candidate's outcome is `Failed` with error string "NotFound" (and
therefore, by `C2`'s characterization, contributes zero savings).  No
`AlreadyGone` outcome is ever produced by the code. -/
theorem C7_amended_notFound :
    (∀ (env : AwsEnv) (volumes : List VolumeInfo),
        (deleteUnattachedVolumes false env volumes).1.failed =
          (volumes.filter (fun v => !volumeCounted false env v)).map
            (fun v => (v.volumeId, volumeErr env v)))
    ∧ (∀ v : VolumeInfo,
        volumeOutcome false envVolumeGone v = .failed
        ∧ volumeErr envVolumeGone v = "NotFound") := by
  constructor
  · intro env volumes
    rw [deleteUnattachedVolumes_eq]
  · intro v
    exact ⟨rfl, rfl⟩

/-! ## aws-cost-analyzer.py : `detect_cost_anomalies` -/

/-- Severity of a detected cost anomaly. -/
inductive AnomalySeverity where
  | medium
  | high
deriving DecidableEq

/-- One entry of the `anomalies` list built by `detect_cost_anomalies`. -/
structure CostAnomaly where
  date : String
  currentCost : ℚ
  previousCost : ℚ
  changePercentage : ℚ
  severity : AnomalySeverity
deriving DecidableEq

/-- The body of one iteration of the loop of `detect_cost_anomalies`
(aws-cost-analyzer.py lines 80-95) once a previous cost is available.
Python's `if previous_cost:` is falsy for `0.0` as well as for `None`, so a
zero previous cost is skipped exactly like a missing one.  Note both
comparisons are strict: `abs(change_percentage) > threshold_percentage` and
`> 50` for the HIGH tier (the high threshold is hardcoded at 50). -/
def anomalyCheck (thresholdPercentage : ℚ) (previousCost : ℚ) (date : String)
    (currentCost : ℚ) : List CostAnomaly :=
  if previousCost ≠ 0 then
    let changePercentage := ((currentCost - previousCost) / previousCost) * 100
    if |changePercentage| > thresholdPercentage then
      [⟨date, currentCost, previousCost, changePercentage,
        if |changePercentage| > 50 then .high else .medium⟩]
    else []
  else []

/-- The loop of `detect_cost_anomalies`, carrying `previous_cost`
(initially `None`, modelled as `Option.none`).  Each daily result is a
`(date, cost)` pair — `result['TimePeriod']['Start']` and
`float(result['Total']['UnblendedCost']['Amount'])`. -/
def detectAnomaliesFrom (thresholdPercentage : ℚ) :
    Option ℚ → List (String × ℚ) → List CostAnomaly
  | _, [] => []
  | prev, (date, cost) :: rest =>
      (match prev with
       | none => []
       | some p => anomalyCheck thresholdPercentage p date cost) ++
        detectAnomaliesFrom thresholdPercentage (some cost) rest

/-- `detect_cost_anomalies(...)` (aws-cost-analyzer.py lines 73-97) on the
daily series, with `threshold_percentage` defaulting to 20 at call sites. -/
def detectCostAnomalies (thresholdPercentage : ℚ)
    (results : List (String × ℚ)) : List CostAnomaly :=
  detectAnomaliesFrom thresholdPercentage none results

/-- All consecutive pairs of a list, in order. -/
def consecPairs {α : Type} : List α → List (α × α)
  | [] => []
  | [_] => []
  | a :: b :: rest => (a, b) :: consecPairs (b :: rest)

/-- The anomalies contributed by one consecutive pair of daily results. -/
def pairAnomaly (thresholdPercentage : ℚ)
    (pair : (String × ℚ) × (String × ℚ)) : List CostAnomaly :=
  anomalyCheck thresholdPercentage pair.1.2 pair.2.1 pair.2.2

/-- The stateful loop of `detect_cost_anomalies` is the pairwise scan over
consecutive daily results. -/
theorem detectCostAnomalies_pairs (thresholdPercentage : ℚ)
    (results : List (String × ℚ)) :
    detectCostAnomalies thresholdPercentage results =
      (consecPairs results).flatMap (pairAnomaly thresholdPercentage) := by
  have key : ∀ (l : List (String × ℚ)) (d : String) (p : ℚ),
      detectAnomaliesFrom thresholdPercentage (some p) l =
        (consecPairs ((d, p) :: l)).flatMap (pairAnomaly thresholdPercentage) := by
    intro l
    induction l with
    | nil => intro d p; rfl
    | cons hd rest ih =>
      intro d p
      rcases hd with ⟨d2, c⟩
      show anomalyCheck thresholdPercentage p d2 c ++
          detectAnomaliesFrom thresholdPercentage (some c) rest =
        (consecPairs ((d, p) :: (d2, c) :: rest)).flatMap
          (pairAnomaly thresholdPercentage)
      rw [show consecPairs ((d, p) :: (d2, c) :: rest) =
            ((d, p), (d2, c)) :: consecPairs ((d2, c) :: rest) from rfl,
        List.flatMap_cons, ih d2 c]
      rfl
  cases results with
  | nil => rfl
  | cons hd rest =>
    rcases hd with ⟨d, c⟩
    show detectAnomaliesFrom thresholdPercentage (some c) rest =
      (consecPairs ((d, c) :: rest)).flatMap (pairAnomaly thresholdPercentage)
    exact key rest d c

/-- **C4, counterexample.**  The claim states that an anomaly is emitted iff
`|pct| >= mediumThreshold` and is High iff `|pct| >= highThreshold`.  Both
comparisons in the code are strict.  At the medium boundary: the series
`[100, 125]` with threshold 25 has `pct = 25` exactly, yet no anomaly is
emitted.  At the high boundary: `[100, 150]` with thresholds medium=20,
high=50 has `pct = 50` exactly and is classified Medium, not High.  (Both
percentages are exactly representable in binary floating point, so the
Python computation agrees with the rational model at these inputs.) -/
theorem C4_counterexample :
    detectCostAnomalies 25 [("2024-01-01", 100), ("2024-01-02", 125)] = []
    ∧ detectCostAnomalies 20 [("2024-01-01", 100), ("2024-01-02", 150)] =
        [⟨"2024-01-02", 150, 100, 50, .medium⟩]
    ∧ AnomalySeverity.medium ≠ AnomalySeverity.high := by
  refine ⟨?_, ?_, by decide⟩
  · norm_num [detectCostAnomalies, detectAnomaliesFrom, anomalyCheck]
  · norm_num [detectCostAnomalies, detectAnomaliesFrom, anomalyCheck]

/-- **C4, amended.**  Delta-mode anomaly detection scans consecutive pairs:
for each pair with a non-zero previous cost it computes
`pct = (current-previous)/previous*100` and emits an anomaly iff
`|pct| > mediumThreshold` (strictly), with severity High iff `|pct| > 50`
(the high threshold is hardcoded at 50), else Medium; the first
observation has no baseline and is never flagged (and a zero baseline is
skipped too, by Python truthiness).  The claim's example series behave as
stated: `[100, 100, 160]` with medium=20 yields exactly one anomaly, at
the third point, with severity High (60% change), and `[100, 105]` yields
none. -/
theorem C4_amended_delta :
    (∀ (thresholdPercentage : ℚ) (results : List (String × ℚ)),
        detectCostAnomalies thresholdPercentage results =
          (consecPairs results).flatMap (pairAnomaly thresholdPercentage))
    ∧ detectCostAnomalies 20
        [("2024-01-01", 100), ("2024-01-02", 100), ("2024-01-03", 160)] =
          [⟨"2024-01-03", 160, 100, 60, .high⟩]
    ∧ detectCostAnomalies 20 [("2024-01-01", 100), ("2024-01-02", 105)] = [] := by
  refine ⟨detectCostAnomalies_pairs, ?_, ?_⟩
  · norm_num [detectCostAnomalies, detectAnomaliesFrom, anomalyCheck]
  · norm_num [detectCostAnomalies, detectAnomaliesFrom, anomalyCheck]

/-! ## rightsizing-recommendations.py : `RightSizingAnalyzer` -/

/-- Replace every occurrence of the pattern `pat` (a nonempty char list) in
the input, scanning left to right; `fuel` bounds the recursion by the input
length (each step consumes at least one character, so `fuel = input.length`
is exhaustive).  This is Python's `str.replace` for a nonempty pattern. -/
def replaceFuel (pat rep : List Char) : ℕ → List Char → List Char
  | 0, l => l
  | _, [] => []
  | fuel + 1, c :: rest =>
    if pat.isPrefixOf (c :: rest) then
      rep ++ replaceFuel pat rep fuel ((c :: rest).drop pat.length)
    else
      c :: replaceFuel pat rep fuel rest

/-- Python's `instance_type.replace(size, smaller)` (the patterns used by
the source are nonempty, for which this is exact). -/
def strReplace (s pat rep : String) : String :=
  if pat.data.isEmpty then s
  else ⟨replaceFuel pat.data rep.data s.data.length s.data⟩

/-- Does `pat` occur as a contiguous substring?  (`p :: ps` is nonempty.) -/
def containsFromChars (p : Char) (ps : List Char) : List Char → Bool
  | [] => false
  | c :: rest => (p :: ps).isPrefixOf (c :: rest) || containsFromChars p ps rest

/-- Python's `pat in s` for strings (the patterns used are nonempty). -/
def strContainsSub (s pat : String) : Bool :=
  match pat.data with
  | [] => true
  | p :: ps => containsFromChars p ps s.data

/-- `RightSizingAnalyzer.suggest_smaller_instance` (rightsizing-
recommendations.py lines 125-139): the `size_map` dict iterates in
insertion order `2xlarge, xlarge, large, medium`; the first key contained
in the instance type is replaced. -/
def suggest_smaller_instance (instanceType : String) : String :=
  if strContainsSub instanceType "2xlarge" then
    strReplace instanceType "2xlarge" "xlarge"
  else if strContainsSub instanceType "xlarge" then
    strReplace instanceType "xlarge" "large"
  else if strContainsSub instanceType "large" then
    strReplace instanceType "large" "medium"
  else if strContainsSub instanceType "medium" then
    strReplace instanceType "medium" "small"
  else instanceType

/-- `RightSizingAnalyzer.suggest_larger_instance` (rightsizing-
recommendations.py lines 141-154), insertion order
`small, medium, large, xlarge`. -/
def suggest_larger_instance (instanceType : String) : String :=
  if strContainsSub instanceType "small" then
    strReplace instanceType "small" "medium"
  else if strContainsSub instanceType "medium" then
    strReplace instanceType "medium" "large"
  else if strContainsSub instanceType "large" then
    strReplace instanceType "large" "xlarge"
  else if strContainsSub instanceType "xlarge" then
    strReplace instanceType "xlarge" "2xlarge"
  else instanceType

/-- The `{'average': ..., 'max': ..., 'p95': ...}` dict returned by
`get_metric_stats`. -/
structure MetricStats where
  average : ℚ
  max : ℚ
  p95 : ℚ
deriving DecidableEq

/-- `RightSizingAnalyzer.get_metric_stats` (rightsizing-recommendations.py
lines 65-90), as a function of the datapoint values the CloudWatch
response carries.  An empty `Datapoints` list — and likewise an exception
from the API call — yields `{'average': 0, 'max': 0, 'p95': 0}`.  For a
nonempty list, `average` is the arithmetic mean, `max` the maximum, and
`p95` the element of the ascending sort at index `int(len(values)*0.95)`
(modelled with exact arithmetic as `len * 95 / 100` in `ℕ`). -/
def get_metric_stats (datapoints : List ℚ) : MetricStats :=
  match datapoints with
  | [] => ⟨0, 0, 0⟩
  | v :: rest =>
      let values := v :: rest
      ⟨values.sum / (values.length : ℚ),
       rest.foldl max v,
       ((values.insertionSort (· ≤ ·)).getD (values.length * 95 / 100) 0)⟩

/-- The `metrics` dict built by `get_instance_metrics`. -/
structure InstanceMetrics where
  cpu_utilization : MetricStats
  network_in : MetricStats
  network_out : MetricStats
deriving DecidableEq

/-- Action of a rightsizing recommendation. -/
inductive RsAction where
  | downsize
  | upsize
deriving DecidableEq

/-- Priority of a rightsizing recommendation. -/
inductive RsPriority where
  | medium
  | high
deriving DecidableEq

/-- The recommendation dict built by `generate_ec2_recommendation` (the
fields relevant to classification). -/
structure Ec2Recommendation where
  instance_id : String
  current_type : String
  action : RsAction
  suggested_type : String
  priority : RsPriority
deriving DecidableEq

/-- `RightSizingAnalyzer.generate_ec2_recommendation` (rightsizing-
recommendations.py lines 92-123).  Only the CPU statistics are consulted.
Over-provisioned: `cpu_avg < 10 and cpu_p95 < 20` yields DOWNSIZE with
priority HIGH when `cpu_avg < 5`; under-provisioned:
`cpu_avg > 80 or cpu_p95 > 90` yields UPSIZE; otherwise no
recommendation. -/
def generate_ec2_recommendation (instanceId instanceType : String)
    (metrics : InstanceMetrics) : Option Ec2Recommendation :=
  let cpu_avg := metrics.cpu_utilization.average
  let cpu_p95 := metrics.cpu_utilization.p95
  if cpu_avg < 10 ∧ cpu_p95 < 20 then
    some ⟨instanceId, instanceType, .downsize, suggest_smaller_instance instanceType,
          if cpu_avg < 5 then .high else .medium⟩
  else if cpu_avg > 80 ∨ cpu_p95 > 90 then
    some ⟨instanceId, instanceType, .upsize, suggest_larger_instance instanceType,
          .high⟩
  else
    none

/-- **C5 (code bug).**  The claim — and the specification — say a metric
series with fewer than one data point yields `NotEligible(InsufficientData)`
and is never classified as a downsizing or upsizing candidate.  The code
instead maps an empty `Datapoints` list (or a failed metrics call) to
statistics of all zeros, which `generate_ec2_recommendation` then
classifies as a DOWNSIZE candidate with priority HIGH.  (The sibling
`analyze_ec2_utilization` in cost-optimizer.py guards
`if cpu_stats['Datapoints']:` and skips such instances, which is the
behaviour the specification describes.) -/
theorem C5_empty_series_downsized :
    get_metric_stats [] = ⟨0, 0, 0⟩
    ∧ generate_ec2_recommendation "i-0abc" "m5.xlarge"
        ⟨get_metric_stats [], get_metric_stats [], get_metric_stats []⟩ =
      some ⟨"i-0abc", "m5.xlarge", .downsize, "m5.large", .high⟩ := by
  constructor
  · rfl
  · norm_num [generate_ec2_recommendation, get_metric_stats]
    decide

/-! ## flow-log-analyzer.py : the submit-then-poll query loops -/

/-- One response of `get_query_results(queryId=...)`.  The code compares
`result['status'] == 'Complete'`; every other status (`Scheduled`,
`Running`, but also `Failed`, `Timeout`, `Cancelled`) falls through to
`time.sleep(1)` and another iteration.  A `Complete` response carries
`result['results']`, a list of rows of `{field, value}` pairs. -/
inductive QueryPollResult where
  | complete (results : List (List (String × String)))
  | running
  | failed
deriving DecidableEq

/-- Is this response the one the loop exits on? -/
def isCompletePoll : QueryPollResult → Bool
  | .complete _ => true
  | _ => false

/-- The `while True: ... if status == 'Complete': return ...; time.sleep(1)`
loop shared verbatim by `query_flow_logs` (flow-log-analyzer.py lines
42-47), `detect_port_scanning` (lines 71-76) and `detect_data_exfiltration`
(lines 100-105).  `poll i` is the backend's response to the `i`-th
`get_query_results` call.  The source loop has no exit besides a
`Complete` response; the `fuel` argument is an observation bound of the
model, not a timeout of the code: `none` means the loop was still running
after `fuel` polls. -/
def waitForQueryResults (poll : ℕ → QueryPollResult) :
    ℕ → ℕ → Option (List (List (String × String)))
  | _, 0 => none
  | i, fuel + 1 =>
      match poll i with
      | .complete results => some results
      | _ => waitForQueryResults poll (i + 1) fuel

/-- `query_flow_logs` observed for `fuel` poll iterations (the same model
covers `detect_port_scanning` and `detect_data_exfiltration`, whose poll
loops are textually identical). -/
def queryFlowLogs (poll : ℕ → QueryPollResult) (fuel : ℕ) :
    Option (List (List (String × String))) :=
  waitForQueryResults poll 0 fuel

/-- The claim's property: some bound exists within which the poll loop
resolves for every sequence of poll responses. -/
def pollLoopBoundedByTimeout : Prop :=
  ∃ fuel : ℕ, ∀ poll : ℕ → QueryPollResult, (queryFlowLogs poll fuel).isSome = true

/-- A backend whose query never completes (e.g. stuck in `Running`). -/
def neverCompletes : ℕ → QueryPollResult := fun _ => .running

/-- The loop observed on `neverCompletes` is still running after any number
of polls. -/
theorem waitForQueryResults_neverCompletes :
    ∀ (fuel i : ℕ), waitForQueryResults neverCompletes i fuel = none := by
  intro fuel
  induction fuel with
  | zero => intro i; rfl
  | succ n ih => intro i; exact ih (i + 1)

/-- **C6, counterexample.**  The claim asserts that the poll loop bounds its
total wait by a timeout for every sequence of poll responses, including
ones that never return `Complete`.  No such bound exists: on a backend
that never completes the query, the loop is still running after any number
of polls — the code's `while True` has no timeout and no other exit. -/
theorem C6_counterexample : ¬ pollLoopBoundedByTimeout := by
  rintro ⟨fuel, h⟩
  have hnever := h neverCompletes
  rw [queryFlowLogs, waitForQueryResults_neverCompletes fuel 0] at hnever
  simp at hnever

/-- **C6, amended.**  The poll loop of `query_flow_logs` (and of
`detect_port_scanning` / `detect_data_exfiltration`) has no timeout: it
resolves within `fuel` polls exactly when one of the first `fuel` poll
responses is `Complete`, and on a backend that never completes it is
still looping after any number of polls — the whole run hangs (a fatal
non-termination) rather than skipping the detector invocation. -/
theorem C6_amended_poll :
    (∀ (poll : ℕ → QueryPollResult) (fuel : ℕ),
        ((queryFlowLogs poll fuel).isSome = true
          ↔ ∃ k, k < fuel ∧ isCompletePoll (poll k) = true))
    ∧ (∀ fuel : ℕ, queryFlowLogs neverCompletes fuel = none) := by
  constructor
  · intro poll
    have key : ∀ (fuel i : ℕ),
        ((waitForQueryResults poll i fuel).isSome = true
          ↔ ∃ k, k < fuel ∧ isCompletePoll (poll (i + k)) = true) := by
      intro fuel
      induction fuel with
      | zero =>
        intro i
        constructor
        · intro h; simp [waitForQueryResults] at h
        · rintro ⟨k, hk, _⟩; omega
      | succ n ih =>
        intro i
        rcases hpoll : poll i with results | _ | _
        · constructor
          · intro _
            exact ⟨0, Nat.succ_pos n, by simp [hpoll, isCompletePoll]⟩
          · intro _
            simp [waitForQueryResults, hpoll]
        · constructor
          · intro h
            rw [show waitForQueryResults poll i (n + 1) =
                  waitForQueryResults poll (i + 1) n by
                simp [waitForQueryResults, hpoll]] at h
            rcases (ih (i + 1)).1 h with ⟨k, hk, hc⟩
            exact ⟨k + 1, by omega, by rw [show i + (k + 1) = i + 1 + k by omega]; exact hc⟩
          · rintro ⟨k, hk, hc⟩
            rw [show waitForQueryResults poll i (n + 1) =
                  waitForQueryResults poll (i + 1) n by
                simp [waitForQueryResults, hpoll]]
            rcases k with _ | k
            · rw [Nat.add_zero] at hc
              rw [hpoll] at hc
              simp [isCompletePoll] at hc
            · exact (ih (i + 1)).2 ⟨k, by omega,
                by rw [show i + 1 + k = i + (k + 1) by omega]; exact hc⟩
        · constructor
          · intro h
            rw [show waitForQueryResults poll i (n + 1) =
                  waitForQueryResults poll (i + 1) n by
                simp [waitForQueryResults, hpoll]] at h
            rcases (ih (i + 1)).1 h with ⟨k, hk, hc⟩
            exact ⟨k + 1, by omega, by rw [show i + (k + 1) = i + 1 + k by omega]; exact hc⟩
          · rintro ⟨k, hk, hc⟩
            rw [show waitForQueryResults poll i (n + 1) =
                  waitForQueryResults poll (i + 1) n by
                simp [waitForQueryResults, hpoll]]
            rcases k with _ | k
            · rw [Nat.add_zero] at hc
              rw [hpoll] at hc
              simp [isCompletePoll] at hc
            · exact (ih (i + 1)).2 ⟨k, by omega,
                by rw [show i + 1 + k = i + (k + 1) by omega]; exact hc⟩
    intro fuel
    simpa using key fuel 0
  · intro fuel
    exact waitForQueryResults_neverCompletes fuel 0

/-! ## aws-cost-analyzer.py : the untagged-percentage guard -/

/-- Python's `round(x, 2)`.  (CPython rounds half-to-even on floats; `round`
on `ℚ` rounds half away from the even tie — the difference can only show
at exact half-way ties, which no theorem below touches, and in particular
not in the guarded zero branch.) -/
def round2 (x : ℚ) : ℚ := (round (x * 100) : ℤ) / 100

/-- The `untagged_percentage` computation of `generate_report`
(aws-cost-analyzer.py line 215):
`round((untagged_total / total_cost) * 100, 2) if total_cost > 0 else 0`. -/
def untaggedPercentage (untaggedTotal totalCost : ℚ) : ℚ :=
  if totalCost > 0 then round2 ((untaggedTotal / totalCost) * 100) else 0

/-- **C8 (confirmed).**  With a total cost of 0 the guard takes the `else`
branch, so the untagged percentage is 0 for every untagged total: no
division is performed, nothing is raised, and the result is an ordinary
(finite) rational. -/
theorem C8_untagged_percentage_zero :
    ∀ untaggedTotal : ℚ, untaggedPercentage untaggedTotal 0 = 0 := by
  intro untaggedTotal
  simp [untaggedPercentage]

/-! ## budget-alert-lambda.py : `lambda_handler` -/

/-- One budget as read by the handler: `BudgetName`,
`float(budget['BudgetLimit']['Amount'])`, and the calculated actual and
forecasted spend (defaulting to 0 when absent). -/
structure BudgetInfo where
  budgetName : String
  budgetLimit : ℚ
  actualSpend : ℚ
  forecastedSpend : ℚ
deriving DecidableEq

/-- Alert level of a budget (`None` maps to `Option.none`). -/
inductive BudgetAlertLevel where
  | critical
  | high
  | medium
  | warning
deriving DecidableEq

/-- `actual_percentage` (budget-alert-lambda.py line 38):
`(actual_spend / budget_limit) * 100 if budget_limit > 0 else 0`. -/
def actual_percentage (b : BudgetInfo) : ℚ :=
  if b.budgetLimit > 0 then (b.actualSpend / b.budgetLimit) * 100 else 0

/-- `forecast_percentage` (budget-alert-lambda.py line 39). -/
def forecast_percentage (b : BudgetInfo) : ℚ :=
  if b.budgetLimit > 0 then (b.forecastedSpend / b.budgetLimit) * 100 else 0

/-- The threshold cascade of the handler (budget-alert-lambda.py
lines 42-50). -/
def alert_level (b : BudgetInfo) : Option BudgetAlertLevel :=
  if actual_percentage b ≥ 100 then some .critical
  else if actual_percentage b ≥ 90 then some .high
  else if actual_percentage b ≥ 80 then some .medium
  else if forecast_percentage b ≥ 100 then some .warning
  else none

/-- One alert record appended to `alerts` (and sent via SNS). -/
structure BudgetAlert where
  budgetName : String
  budgetLimit : ℚ
  actualSpend : ℚ
  forecastedSpend : ℚ
  actualPercentage : ℚ
  forecastPercentage : ℚ
  alertLevel : BudgetAlertLevel
deriving DecidableEq

/-- The per-budget loop of `lambda_handler` (budget-alert-lambda.py
lines 29-69): a budget contributes an alert — and an SNS publication and a
CloudWatch metric — exactly when `alert_level` is truthy. -/
def budget_lambda_handler (budgetsList : List BudgetInfo) : List BudgetAlert :=
  budgetsList.filterMap (fun b =>
    (alert_level b).map (fun lv =>
      ⟨b.budgetName, b.budgetLimit, b.actualSpend, b.forecastedSpend,
       actual_percentage b, forecast_percentage b, lv⟩))

/-- **C10 (confirmed).**  For a budget whose configured limit is 0, both
utilization percentages resolve to 0 without any division (the `else`
branch of the guard), the threshold cascade therefore selects no alert
level, and the handler emits no alert for that budget — regardless of how
large its actual or forecasted spend is. -/
theorem C10_zero_limit_no_alert :
    ∀ (name : String) (actualSpend forecastedSpend : ℚ),
      actual_percentage ⟨name, 0, actualSpend, forecastedSpend⟩ = 0
      ∧ forecast_percentage ⟨name, 0, actualSpend, forecastedSpend⟩ = 0
      ∧ alert_level ⟨name, 0, actualSpend, forecastedSpend⟩ = none
      ∧ budget_lambda_handler [⟨name, 0, actualSpend, forecastedSpend⟩] = [] := by
  intro name actualSpend forecastedSpend
  have hap : actual_percentage ⟨name, 0, actualSpend, forecastedSpend⟩ = 0 := by
    simp [actual_percentage]
  have hfp : forecast_percentage ⟨name, 0, actualSpend, forecastedSpend⟩ = 0 := by
    simp [forecast_percentage]
  have hlevel : alert_level ⟨name, 0, actualSpend, forecastedSpend⟩ = none := by
    rw [alert_level, hap, hfp]
    norm_num
  refine ⟨hap, hfp, hlevel, ?_⟩
  simp [budget_lambda_handler, hlevel]
